import Mathlib

/-!
Verification of the chat relay handler (`backend/backend.py`, `chat_completion`).

The handler is embedded as a pure function over:
  * a JSON value type (`Json`) modelling Flask's parsed request body,
  * an upstream oracle (`Upstream`) modelling
    `chat_client.chat.completions.create(model=..., messages=...)`,
    which either returns a `ChatCompletion` or raises (the `Except.error`
    case carries `str(e)` of the raised exception).

The result records the HTTP outcome, the list of upstream calls made
(pairs of model identifier and messages value), and the diagnostic trace
produced by `print("AI Response:", ai_message)`.

Exceptions that escape the handler itself are modelled by
`HandlerOutcome.fault`: Flask's `request.json` raises `BadRequest` on an
unparseable body (the `none` body), and `data.get('messages', [])` raises
`AttributeError` when the parsed body is not a mapping.
-/

namespace Backend

/-- JSON values, as decoded by Flask from the request body. -/
inductive Json where
  | null : Json
  | bool (b : Bool) : Json
  | num (n : Int) : Json
  | str (s : String) : Json
  | arr (items : List Json) : Json
  | obj (fields : List (String × Json)) : Json

/-- Python `dict.get` on a JSON object decoded into an association list
(keys are unique after JSON decoding). -/
def dictGet : List (String × Json) → String → Option Json
  | [], _ => none
  | (k, v) :: rest, key => if k = key then some v else dictGet rest key

/-- Python truthiness (`bool(x)`) of a decoded JSON value, as used by
`if not messages:` in the handler. -/
def truthy : Json → Bool
  | Json.null => false
  | Json.bool b => b
  | Json.num n => n != 0
  | Json.str s => s != ""
  | Json.arr items => !items.isEmpty
  | Json.obj fields => !fields.isEmpty

/-- The `message` object of one upstream choice (`message.content`). -/
structure ChatCompletionMessage where
  content : String

/-- One candidate completion returned by the upstream API. -/
structure Choice where
  message : ChatCompletionMessage

/-- The upstream response: `response.choices` is a list of choices. -/
structure ChatCompletion where
  choices : List Choice

/-- The upstream call `chat_client.chat.completions.create(model, messages)`,
modelled as a deterministic oracle: it receives the model identifier and the
messages value, and either returns a response or raises an exception whose
`str(e)` is the carried string. -/
abbrev Upstream : Type := String → Json → Except String ChatCompletion

/-- An HTTP response produced by the handler: status code and JSON body. -/
structure HttpResponse where
  status : Nat
  body : Json

/-- Exceptions that escape the handler uncaught. -/
inductive PyExc where
  | badRequest : PyExc
  | attributeError : PyExc

/-- The observable outcome of one handler invocation: either an HTTP
response returned by the handler, or an exception raised past its
boundary. -/
inductive HandlerOutcome where
  | response (r : HttpResponse) : HandlerOutcome
  | fault (e : PyExc) : HandlerOutcome

/-- The full observable behaviour of one invocation: the outcome, the
upstream calls made (model identifier and messages, in order), and the
lines written to the diagnostic output stream by `print`. -/
structure HandlerResult where
  outcome : HandlerOutcome
  upstreamCalls : List (String × Json)
  trace : List String

/-- Shallow embedding of the route handler `chat_completion` in
`backend/backend.py`. The `body` argument is `none` when the request body
is not parseable as JSON (Flask's `request.json` raises `BadRequest`),
and `some v` when it parses to the JSON value `v`. An empty upstream
`choices` list makes `response.choices[0]` raise `IndexError`, which the
`except Exception` clause converts to a 500 response carrying
`str(e) = "list index out of range"`. -/
def chat_completion (upstream : Upstream) (body : Option Json) : HandlerResult :=
  match body with
  | none =>
      ⟨HandlerOutcome.fault PyExc.badRequest, [], []⟩
  | some data =>
      match data with
      | Json.obj fields =>
          let messages := (dictGet fields "messages").getD (Json.arr [])
          if truthy messages = false then
            ⟨HandlerOutcome.response ⟨400, Json.obj [("error", Json.str "No messages provided")]⟩,
             [], []⟩
          else
            match upstream "tentris" messages with
            | Except.error e =>
                ⟨HandlerOutcome.response ⟨500, Json.obj [("error", Json.str e)]⟩,
                 [("tentris", messages)], []⟩
            | Except.ok response =>
                match response.choices with
                | [] =>
                    ⟨HandlerOutcome.response
                       ⟨500, Json.obj [("error", Json.str "list index out of range")]⟩,
                     [("tentris", messages)], []⟩
                | c :: _ =>
                    let ai_message := c.message.content
                    ⟨HandlerOutcome.response
                       ⟨200, Json.obj [("choices", Json.arr [Json.obj [("message",
                          Json.obj [("content", Json.str ai_message)])]])]⟩,
                     [("tentris", messages)],
                     ["AI Response: " ++ ai_message]⟩
      | _ =>
          ⟨HandlerOutcome.fault PyExc.attributeError, [], []⟩

/-- Two invocations of the handler on the same upstream and request,
in sequence (the handler holds no state between them). -/
def invokeTwice (upstream : Upstream) (body : Option Json) :
    HandlerResult × HandlerResult :=
  (chat_completion upstream body, chat_completion upstream body)

/-- An upstream oracle that reacts the same way to every call; used to
instantiate theorems at concrete inputs. -/
def constUpstream (r : Except String ChatCompletion) : Upstream :=
  fun _ _ => r

/-- Claim C1: for every request whose JSON body contains a non-empty
`messages` sequence, when the upstream call succeeds and returns at least
one choice, the handler returns status 200 with body exactly
`{"choices": [{"message": {"content": C}}]}` where `C` is exactly the
content string of the upstream's first choice, untransformed. -/
theorem chat_completion_success_passthrough (U : Upstream)
    (fields : List (String × Json)) (m : Json) (ms : List Json)
    (c : Choice) (cs : List Choice)
    (hmsg : dictGet fields "messages" = some (Json.arr (m :: ms)))
    (hup : U "tentris" (Json.arr (m :: ms)) = Except.ok ⟨c :: cs⟩) :
    (chat_completion U (some (Json.obj fields))).outcome =
      HandlerOutcome.response ⟨200, Json.obj [("choices", Json.arr [Json.obj [("message",
        Json.obj [("content", Json.str c.message.content)])]])]⟩ := by
  simp [chat_completion, hmsg, hup, truthy]

theorem chat_completion_success_passthrough_witness :
    (chat_completion (constUpstream (Except.ok ⟨[⟨⟨"hello"⟩⟩]⟩))
        (some (Json.obj [("messages", Json.arr [Json.str "hi"])]))).outcome =
      HandlerOutcome.response ⟨200, Json.obj [("choices", Json.arr [Json.obj [("message",
        Json.obj [("content", Json.str "hello")])]])]⟩ :=
  chat_completion_success_passthrough (constUpstream (Except.ok ⟨[⟨⟨"hello"⟩⟩]⟩))
    [("messages", Json.arr [Json.str "hi"])] (Json.str "hi") [] ⟨⟨"hello"⟩⟩ [] rfl rfl

/-- Claim C2: for every request whose JSON body is a mapping in which
`messages` is absent or maps to an empty sequence, the handler returns
status 400 with body `{"error": "No messages provided"}` and makes no
upstream call. -/
theorem chat_completion_validation (U : Upstream) (fields : List (String × Json))
    (h : dictGet fields "messages" = none ∨
         dictGet fields "messages" = some (Json.arr [])) :
    chat_completion U (some (Json.obj fields)) =
      ⟨HandlerOutcome.response ⟨400, Json.obj [("error", Json.str "No messages provided")]⟩,
       [], []⟩ := by
  rcases h with h | h <;> simp [chat_completion, h, truthy]

theorem chat_completion_validation_witness :
    chat_completion (constUpstream (Except.ok ⟨[]⟩)) (some (Json.obj [])) =
      ⟨HandlerOutcome.response ⟨400, Json.obj [("error", Json.str "No messages provided")]⟩,
       [], []⟩ :=
  chat_completion_validation (constUpstream (Except.ok ⟨[]⟩)) [] (Or.inl rfl)

/-- Claim C3: for every request with a non-empty `messages` sequence, if
the upstream call raises any exception, the handler catches it and returns
status 500 with body `{"error": S}` where `S` is the stringified
exception. -/
theorem chat_completion_upstream_error (U : Upstream)
    (fields : List (String × Json)) (m : Json) (ms : List Json) (e : String)
    (hmsg : dictGet fields "messages" = some (Json.arr (m :: ms)))
    (hup : U "tentris" (Json.arr (m :: ms)) = Except.error e) :
    (chat_completion U (some (Json.obj fields))).outcome =
      HandlerOutcome.response ⟨500, Json.obj [("error", Json.str e)]⟩ := by
  simp [chat_completion, hmsg, hup, truthy]

theorem chat_completion_upstream_error_witness :
    (chat_completion (constUpstream (Except.error "Connection refused"))
        (some (Json.obj [("messages", Json.arr [Json.str "hi"])]))).outcome =
      HandlerOutcome.response ⟨500, Json.obj [("error", Json.str "Connection refused")]⟩ :=
  chat_completion_upstream_error (constUpstream (Except.error "Connection refused"))
    [("messages", Json.arr [Json.str "hi"])] (Json.str "hi") [] "Connection refused" rfl rfl

/-- Claim C4 counterexample: the handler does raise past its own boundary
for some inputs. A body that is not valid JSON makes `request.json` raise
`BadRequest` before the `try` block, and a valid-JSON body that is not a
mapping (here the empty array) makes `data.get` raise `AttributeError`;
neither yields a structured error response. -/
theorem chat_completion_fault_counterexample :
    (chat_completion (constUpstream (Except.ok ⟨[]⟩)) none).outcome =
      HandlerOutcome.fault PyExc.badRequest ∧
    (chat_completion (constUpstream (Except.ok ⟨[]⟩)) (some (Json.arr []))).outcome =
      HandlerOutcome.fault PyExc.attributeError :=
  ⟨rfl, rfl⟩

/-- Claim C4 (amended): for every request whose body parses as a JSON
mapping, the handler never raises past its own boundary: it always returns
an HTTP response, and every non-200 response carries a body of the form
`{"error": S}`. Bodies that are not valid JSON, or not JSON mappings,
instead raise past the handler (`BadRequest` or `AttributeError`) and are
not converted to the structured error shape by the handler. -/
theorem chat_completion_no_fault_on_mapping (U : Upstream)
    (fields : List (String × Json)) :
    ∃ r, (chat_completion U (some (Json.obj fields))).outcome =
        HandlerOutcome.response r ∧
      (r.status = 200 ∨ ∃ s, r.body = Json.obj [("error", Json.str s)]) := by
  unfold chat_completion
  by_cases ht : truthy ((dictGet fields "messages").getD (Json.arr [])) = false
  · exact ⟨⟨400, Json.obj [("error", Json.str "No messages provided")]⟩,
      by simp [ht], Or.inr ⟨"No messages provided", rfl⟩⟩
  · cases hup : U "tentris" ((dictGet fields "messages").getD (Json.arr [])) with
    | error e =>
      exact ⟨⟨500, Json.obj [("error", Json.str e)]⟩,
        by simp [ht, hup], Or.inr ⟨e, rfl⟩⟩
    | ok resp =>
      cases hch : resp.choices with
      | nil =>
        exact ⟨⟨500, Json.obj [("error", Json.str "list index out of range")]⟩,
          by simp [ht, hup, hch], Or.inr ⟨"list index out of range", rfl⟩⟩
      | cons c cs =>
        exact ⟨⟨200, Json.obj [("choices", Json.arr [Json.obj [("message",
            Json.obj [("content", Json.str c.message.content)])]])]⟩,
          by simp [ht, hup, hch], Or.inl rfl⟩

/-- Claim C5: for every request with a non-empty `messages` sequence, the
upstream is called exactly once, the messages value sent upstream is
identical to the one supplied by the caller, and the model identifier sent
is the fixed constant `"tentris"`, independent of the request. -/
theorem chat_completion_passthrough_fidelity (U : Upstream)
    (fields : List (String × Json)) (m : Json) (ms : List Json)
    (hmsg : dictGet fields "messages" = some (Json.arr (m :: ms))) :
    (chat_completion U (some (Json.obj fields))).upstreamCalls =
      [("tentris", Json.arr (m :: ms))] := by
  unfold chat_completion
  cases hup : U "tentris" (Json.arr (m :: ms)) with
  | error e => simp [hmsg, truthy, hup]
  | ok resp =>
    cases hch : resp.choices with
    | nil => simp [hmsg, truthy, hup, hch]
    | cons c cs => simp [hmsg, truthy, hup, hch]

theorem chat_completion_passthrough_fidelity_witness :
    (chat_completion (constUpstream (Except.error "boom"))
        (some (Json.obj [("messages", Json.arr [Json.str "hi"])]))).upstreamCalls =
      [("tentris", Json.arr [Json.str "hi"])] :=
  chat_completion_passthrough_fidelity (constUpstream (Except.error "boom"))
    [("messages", Json.arr [Json.str "hi"])] (Json.str "hi") [] rfl

/-- Claim C6: for every successful upstream response, no matter how many
choices the upstream returned, the success body contains a `choices` list
with exactly one element, wrapping the content of the upstream's first
choice; all later choices are discarded. -/
theorem chat_completion_single_choice (U : Upstream)
    (fields : List (String × Json)) (m : Json) (ms : List Json)
    (c : Choice) (cs : List Choice)
    (hmsg : dictGet fields "messages" = some (Json.arr (m :: ms)))
    (hup : U "tentris" (Json.arr (m :: ms)) = Except.ok ⟨c :: cs⟩) :
    ∃ single, (chat_completion U (some (Json.obj fields))).outcome =
        HandlerOutcome.response ⟨200, Json.obj [("choices", Json.arr [single])]⟩ ∧
      single = Json.obj [("message", Json.obj [("content", Json.str c.message.content)])] := by
  exact ⟨_, by simp [chat_completion, hmsg, hup, truthy], rfl⟩

theorem chat_completion_single_choice_witness :
    ∃ single, (chat_completion
        (constUpstream (Except.ok ⟨[⟨⟨"first"⟩⟩, ⟨⟨"second"⟩⟩, ⟨⟨"third"⟩⟩]⟩))
        (some (Json.obj [("messages", Json.arr [Json.str "hi"])]))).outcome =
        HandlerOutcome.response ⟨200, Json.obj [("choices", Json.arr [single])]⟩ ∧
      single = Json.obj [("message", Json.obj [("content", Json.str "first")])] :=
  chat_completion_single_choice
    (constUpstream (Except.ok ⟨[⟨⟨"first"⟩⟩, ⟨⟨"second"⟩⟩, ⟨⟨"third"⟩⟩]⟩))
    [("messages", Json.arr [Json.str "hi"])] (Json.str "hi") []
    ⟨⟨"first"⟩⟩ [⟨⟨"second"⟩⟩, ⟨⟨"third"⟩⟩] rfl rfl

/-- Claim C7: the handler is deterministic as a function of the request
and a deterministic upstream: two invocations on the same input produce
structurally identical results (the handler keeps no state between
invocations). -/
theorem chat_completion_deterministic (U : Upstream) (body : Option Json) :
    (invokeTwice U body).1 = (invokeTwice U body).2 :=
  rfl

/-- Claim C8: on every successful invocation (200 with the success
envelope) the extracted content string is written to the diagnostic
output stream exactly once, as the line `print("AI Response:", ...)`
produces; on every other path nothing is written. Every invocation
either succeeds and its trace is exactly the one printed line, or its
outcome is not a success response and its trace is empty — so a success
forces the write. -/
theorem chat_completion_trace (U : Upstream) (body : Option Json) :
    (∃ s, (chat_completion U body).outcome =
        HandlerOutcome.response ⟨200, Json.obj [("choices", Json.arr [Json.obj [("message",
          Json.obj [("content", Json.str s)])]])]⟩ ∧
      (chat_completion U body).trace = ["AI Response: " ++ s]) ∨
    ((∀ s, (chat_completion U body).outcome ≠
        HandlerOutcome.response ⟨200, Json.obj [("choices", Json.arr [Json.obj [("message",
          Json.obj [("content", Json.str s)])]])]⟩) ∧
     (chat_completion U body).trace = []) := by
  unfold chat_completion
  cases body with
  | none => exact Or.inr ⟨fun s => by simp, rfl⟩
  | some data =>
    cases data with
    | null => exact Or.inr ⟨fun s => by simp, rfl⟩
    | bool b => exact Or.inr ⟨fun s => by simp, rfl⟩
    | num n => exact Or.inr ⟨fun s => by simp, rfl⟩
    | str s => exact Or.inr ⟨fun t => by simp, rfl⟩
    | arr _ => exact Or.inr ⟨fun s => by simp, rfl⟩
    | obj fields =>
      by_cases ht : truthy ((dictGet fields "messages").getD (Json.arr [])) = false
      · exact Or.inr ⟨fun s => by simp [ht], by simp [ht]⟩
      · cases hup : U "tentris" ((dictGet fields "messages").getD (Json.arr [])) with
        | error e => exact Or.inr ⟨fun s => by simp [ht, hup], by simp [ht, hup]⟩
        | ok resp =>
          cases hch : resp.choices with
          | nil => exact Or.inr ⟨fun s => by simp [ht, hup, hch], by simp [ht, hup, hch]⟩
          | cons c cs =>
            exact Or.inl ⟨c.message.content, by simp [ht, hup, hch], by simp [ht, hup, hch]⟩

/-- Claim C9 (implicit): validation only tests Python truthiness of the
value under `messages`, not that it is a sequence — any truthy
non-sequence value (for example a non-empty string) passes validation and
is forwarded to the upstream call unchanged instead of being rejected
with status 400. -/
theorem chat_completion_truthy_forwarded (U : Upstream)
    (fields : List (String × Json)) (v : Json)
    (hmsg : dictGet fields "messages" = some v)
    (hseq : ∀ items, v ≠ Json.arr items)
    (ht : truthy v = true) :
    (chat_completion U (some (Json.obj fields))).upstreamCalls = [("tentris", v)] ∧
    ∀ r, (chat_completion U (some (Json.obj fields))).outcome =
        HandlerOutcome.response r → r.status ≠ 400 := by
  unfold chat_completion
  cases hup : U "tentris" v with
  | error e =>
    refine ⟨by simp [hmsg, ht, hup], ?_⟩
    intro r hr
    simp [hmsg, ht, hup] at hr
    subst hr
    simp
  | ok resp =>
    cases hch : resp.choices with
    | nil =>
      refine ⟨by simp [hmsg, ht, hup, hch], ?_⟩
      intro r hr
      simp [hmsg, ht, hup, hch] at hr
      subst hr
      simp
    | cons c cs =>
      refine ⟨by simp [hmsg, ht, hup, hch], ?_⟩
      intro r hr
      simp [hmsg, ht, hup, hch] at hr
      subst hr
      simp

theorem chat_completion_truthy_forwarded_witness :
    (chat_completion (constUpstream (Except.ok ⟨[⟨⟨"hello"⟩⟩]⟩))
        (some (Json.obj [("messages", Json.str "hi")]))).upstreamCalls =
      [("tentris", Json.str "hi")] ∧
    ∀ r, (chat_completion (constUpstream (Except.ok ⟨[⟨⟨"hello"⟩⟩]⟩))
        (some (Json.obj [("messages", Json.str "hi")]))).outcome =
        HandlerOutcome.response r → r.status ≠ 400 :=
  chat_completion_truthy_forwarded (constUpstream (Except.ok ⟨[⟨⟨"hello"⟩⟩]⟩))
    [("messages", Json.str "hi")] (Json.str "hi") rfl
    (fun _ h => Json.noConfusion h) rfl

/-- Claim C10 (implicit): when the upstream call succeeds but returns an
empty `choices` list, the `IndexError` from `response.choices[0]` is
caught inside the handler's `except` clause, yielding status 500 with an
`{"error": S}` body (here `S = "list index out of range"`), not a success
response and not an uncaught fault. -/
theorem chat_completion_empty_choices (U : Upstream)
    (fields : List (String × Json)) (m : Json) (ms : List Json)
    (hmsg : dictGet fields "messages" = some (Json.arr (m :: ms)))
    (hup : U "tentris" (Json.arr (m :: ms)) = Except.ok ⟨[]⟩) :
    (chat_completion U (some (Json.obj fields))).outcome =
      HandlerOutcome.response
        ⟨500, Json.obj [("error", Json.str "list index out of range")]⟩ := by
  simp [chat_completion, hmsg, hup, truthy]

theorem chat_completion_empty_choices_witness :
    (chat_completion (constUpstream (Except.ok ⟨[]⟩))
        (some (Json.obj [("messages", Json.arr [Json.str "hi"])]))).outcome =
      HandlerOutcome.response
        ⟨500, Json.obj [("error", Json.str "list index out of range")]⟩ :=
  chat_completion_empty_choices (constUpstream (Except.ok ⟨[]⟩))
    [("messages", Json.arr [Json.str "hi"])] (Json.str "hi") [] rfl rfl

end Backend
